import Mathlib

/-!
Verification of the Navigation Decision Engine of the cloud-derby robot
controller.

The engine proper is `navigation.js` (class `Navigation`), embedded here as
pure Lean functions.  Numbers are embedded as `ℚ` (JS numeric expressions in
this code stay well inside the exactly-representable range, and every claim
below is about branch structure, order and exact constants, not float
rounding).  Strings are embedded as `List Char`.  JS `Math.round` rounds
half-up, which on rationals is `⌊q + 1/2⌋`.

The modules `drive-message.js` and `game-settings.js` are not part of the
sources; the `DriveMessage` builder and the settings record are modelled from
the spec (data model §3: a mode flag, a goal tag, a correlation identifier and
an ordered list of primitive actions; builder calls append actions in emission
order) and kept abstract where the spec gives no value.
-/

namespace CloudDerby

/-- JS `Math.round`: round half toward positive infinity. -/
def jsRound (q : ℚ) : ℤ := ⌊q + 1 / 2⌋

/-- Goal tags of drive commands.  Modelled from the spec: the enumeration of
goal tags (`drive-message.js` is not under src/); names follow the constants
imported by `navigation.js`. -/
inductive Goal where
  | SEEK_BALL_TURN
  | SEEK_BALL_MOVE
  | GO_TO_BALL
  | CHECK_GRIP
  | GO2BASE
  | SEEK_HOME_TURN
  | GAME_END
  deriving DecidableEq, Repr

/-- Drive mode flag.  Modelled from the spec (§3). -/
inductive Mode where
  | MANUAL
  | AUTOMATIC
  | DEBUG
  deriving DecidableEq, Repr

/-- Primitive actions of a drive command.  Modelled from the spec (§3): turn
by angle, drive by signed distance, set speed, open/close gripper, request
next sensor reading. -/
inductive Action where
  | makeTurn (angleDegrees : ℤ)
  | drive (distanceMm : ℚ)
  | setSpeed (speed : ℚ)
  | gripperOpen
  | gripperClose
  | requestSensor
  deriving DecidableEq, Repr

/-- A drive command under construction.  Modelled from the spec (§3):
`drive-message.js` is not under src/.  `ballCount` records `addBallCount`
increments. -/
structure DriveMessage where
  mode : Option Mode := none
  goal : Option Goal := none
  correlationId : Option ℕ := none
  actions : List Action := []
  ballCount : ℕ := 0
  deriving DecidableEq, Repr

namespace DriveMessage

/-- Modelled from the spec: builder setters of `drive-message.js`. -/
def setModeAutomatic (m : DriveMessage) : DriveMessage :=
  { m with mode := some Mode.AUTOMATIC }

def setGoal (g : Goal) (m : DriveMessage) : DriveMessage :=
  { m with goal := some g }

def setGoalSeekBallTurn (m : DriveMessage) : DriveMessage := m.setGoal Goal.SEEK_BALL_TURN

def setGoalSeekBallMove (m : DriveMessage) : DriveMessage := m.setGoal Goal.SEEK_BALL_MOVE

def setGoalGo2Ball (m : DriveMessage) : DriveMessage := m.setGoal Goal.GO_TO_BALL

def setGoalCheck4Grip (m : DriveMessage) : DriveMessage := m.setGoal Goal.CHECK_GRIP

def setGoalGo2Base (m : DriveMessage) : DriveMessage := m.setGoal Goal.GO2BASE

def setGoalSeekHomeTurn (m : DriveMessage) : DriveMessage := m.setGoal Goal.SEEK_HOME_TURN

def setGoalGameEnd (m : DriveMessage) : DriveMessage := m.setGoal Goal.GAME_END

def setCorrelationID (m : DriveMessage) (ts : ℕ) : DriveMessage :=
  { m with correlationId := some ts }

/-- Modelled from the spec: each physical builder call appends one primitive
action, and the action sequence is never reordered (§3 invariant). -/
def addAction (a : Action) (m : DriveMessage) : DriveMessage :=
  { m with actions := m.actions ++ [a] }

def makeTurn (m : DriveMessage) (angleDegrees : ℤ) : DriveMessage :=
  m.addAction (Action.makeTurn angleDegrees)

/-- Modelled from the spec: positive angle means turn right (§4.1), so
`turnRight(a)` is a turn by `+a`. -/
def turnRight (m : DriveMessage) (angleDegrees : ℤ) : DriveMessage :=
  m.addAction (Action.makeTurn angleDegrees)

def drive (m : DriveMessage) (distanceMm : ℚ) : DriveMessage :=
  m.addAction (Action.drive distanceMm)

def setSpeed (m : DriveMessage) (speed : ℚ) : DriveMessage :=
  m.addAction (Action.setSpeed speed)

def gripperOpen (m : DriveMessage) : DriveMessage :=
  m.addAction Action.gripperOpen

def gripperClose (m : DriveMessage) : DriveMessage :=
  m.addAction Action.gripperClose

def sendSensorMessage (m : DriveMessage) : DriveMessage :=
  m.addAction Action.requestSensor

def addBallCount (m : DriveMessage) : DriveMessage :=
  { m with ballCount := m.ballCount + 1 }

end DriveMessage

/-- Camera calibration constants.  Modelled from the spec:
`game-settings.js` is not under src/; values are kept abstract. -/
structure Camera where
  H_FIELD_OF_VIEW : ℚ
  FOCAL_LENGTH_MM : ℚ
  SENSOR_HEIGHT_MM : ℚ
  deriving DecidableEq, Repr

/-- Game settings.  Modelled from the spec: `game-settings.js` is not under
src/; values are kept abstract and quantified in the theorems. -/
structure GameSettings where
  MAX_SPEED : ℚ
  BALLS_NEEDED : ℕ
  MIN_DISTANCE_TO_CAMERA_MM : ℚ
  BALL_SIZE_MM : ℚ
  HOME_SIZE_MM : ℚ
  camera : Camera
  deriving DecidableEq, Repr

/-- Label suffix for balls ("aka red_ball" in `navigation.js` comments). -/
def BALL_LABEL_SUFFIX : List Char := "_ball".toList

/-- Label suffix for home bases ("aka red_home" in `navigation.js` comments). -/
def HOME_LABEL_SUFFIX : List Char := "_home".toList

/-- `navigation.js`: `const TURN_SPEED = Settings.MAX_SPEED / 10`. -/
def TURN_SPEED (s : GameSettings) : ℚ := s.MAX_SPEED / 10

/-- `navigation.js`: `const HIGH_BALL_TOP_BOUND = 0.2`. -/
def HIGH_BALL_TOP_BOUND : ℚ := 2 / 10

/-- `navigation.js`: `const HIGH_BALL_SCORE = 0.5`. -/
def HIGH_BALL_SCORE : ℚ := 5 / 10

/-- One perceived object: label, confidence score and normalized bounding box
`{x, y, w, h}` (the vision response element as consumed by
`findNearestObject`, `findAngle`, `findDistanceMM`). -/
structure Detection where
  label : List Char
  score : ℚ
  x : ℚ
  y : ℚ
  w : ℚ
  h : ℚ
  deriving DecidableEq, Repr

/-- `navigation.js` `findAngle(bBox)`: angle of the object off the image
center, `(centerX - 0.5) * H_FIELD_OF_VIEW * 0.75`, rounded. -/
def findAngle (bBox : Detection) (s : GameSettings) : ℤ :=
  let ANGLE_CALIBRATION_MULTIPLIER : ℚ := 75 / 100
  let centerX : ℚ := bBox.x + bBox.w / 2
  let angle : ℚ := (centerX - 1 / 2) * s.camera.H_FIELD_OF_VIEW * ANGLE_CALIBRATION_MULTIPLIER
  jsRound angle

/-- `navigation.js` `findDistanceMM(bBox, realObjectVerticalSizeMm)`: pinhole
distance from the larger box dimension, then the two-band empirical
correction, then `Math.round`. -/
def findDistanceMM (bBox : Detection) (realObjectVerticalSizeMm : ℚ) (s : GameSettings) : ℤ :=
  let relative_object_size : ℚ := max bBox.h bBox.w
  let distanceMM : ℚ := s.camera.FOCAL_LENGTH_MM * realObjectVerticalSizeMm /
    (relative_object_size * s.camera.SENSOR_HEIGHT_MM) - s.MIN_DISTANCE_TO_CAMERA_MM
  let distanceMM : ℚ :=
    if distanceMM < 95 then 20
    else if distanceMM < 325 then distanceMM - 35
    else distanceMM
  jsRound distanceMM

/-- Lowercasing of a string, embedding JS `toLocaleLowerCase`/`toLowerCase`
(the labels and suffixes involved are plain ASCII). -/
def toLowerStr (cs : List Char) : List Char := cs.map Char.toLower

/-- JS `haystack.indexOf(needle) >= 0`: substring containment. -/
def jsContains (haystack needle : List Char) : Bool := decide (needle <:+: haystack)

/-- `navigation.js` `findNearestObject`, false-positive skip condition: a
ball-type detection with low confidence whose top edge is high in the frame
(`obj.label` contains the ball suffix, `obj.score < HIGH_BALL_SCORE`,
`obj.y < HIGH_BALL_TOP_BOUND`). -/
def isFalsePositiveBall (obj : Detection) : Bool :=
  jsContains (toLowerStr obj.label) (toLowerStr BALL_LABEL_SUFFIX) &&
    decide (obj.score < HIGH_BALL_SCORE) && decide (obj.y < HIGH_BALL_TOP_BOUND)

/-- `navigation.js` `findNearestObject`, label match: the lowercased detection
label contains the lowercased target label
(`obj.label.toLocaleLowerCase().indexOf(objectType.toLowerCase()) >= 0`). -/
def labelMatch (objectType : List Char) (obj : Detection) : Bool :=
  jsContains (toLowerStr obj.label) (toLowerStr objectType)

/-- Effective size of a detection: `Math.max(obj.w, obj.h) * obj.score`. -/
def detSize (obj : Detection) : ℚ := max obj.w obj.h * obj.score

/-- The loop of `findNearestObject`, processing detections in scan order
(from the END of the vision list toward its start), carrying `foundSize` and
the best candidate so far, updating only on a strict size increase. -/
def findNearestGo (objectType : List Char) :
    List Detection → ℚ → Option Detection → Option Detection
  | [], _, nearestObject => nearestObject
  | obj :: rest, foundSize, nearestObject =>
    if isFalsePositiveBall obj then
      findNearestGo objectType rest foundSize nearestObject
    else if labelMatch objectType obj then
      (if foundSize < detSize obj then
        findNearestGo objectType rest (detSize obj) (some obj)
      else
        findNearestGo objectType rest foundSize nearestObject)
    else
      findNearestGo objectType rest foundSize nearestObject

/-- `navigation.js` `findNearestObject(objectType, visionResponse)`: the JS
loop `for (var i = visionResponse.bBoxes.length; i--;)` walks the list from
its last element to its first, so the loop body runs over the reversed list. -/
def findNearestObject (objectType : List Char) (visionResponse : List Detection) :
    Option Detection :=
  findNearestGo objectType visionResponse.reverse 0 none

/-- The while loop of `countGoals`, walking entries from the most recent
backward, counting while the goal matches. -/
def countGoalsRev (goal : Goal) : List DriveMessage → ℕ
  | [] => 0
  | c :: rest => if c.goal = some goal then countGoalsRev goal rest + 1 else 0

/-- `navigation.js` `countGoals(goal)`: number of most recent sequential
history entries carrying `goal`, scanning from the end of the history. -/
def countGoals (goal : Goal) (commandHistory : List DriveMessage) : ℕ :=
  countGoalsRev goal commandHistory.reverse

/-- `navigation.js` `ballSearchStrategy(visionResponse)`.  `r1` and `r2` are
the two injected `Math.random()` draws (each in `[0,1)`); `visionResponse` is
unused by the source body apart from logging. -/
def ballSearchStrategy (s : GameSettings) (commandHistory : List DriveMessage)
    (r1 r2 : ℚ) : DriveMessage :=
  let command := DriveMessage.setModeAutomatic {}
  if countGoals Goal.SEEK_BALL_TURN commandHistory < 5 then
    let angle : ℤ := 67
    ((command.setGoalSeekBallTurn).setSpeed (TURN_SPEED s)).makeTurn angle
  else
    let command := command.setGoalSeekBallMove
    let minDistanceMm : ℚ := 100
    let maxRandomDistanceMm : ℚ := 600
    let distance : ℚ := minDistanceMm + ⌊r1 * maxRandomDistanceMm⌋
    let distance : ℚ := if r2 < 25 / 100 then -distance else distance
    (command.setSpeed (TURN_SPEED s)).drive distance

/-- `navigation.js` `homeSearchStrategy(visionResponse)`.  `r1` is the
injected `Math.random()` draw. -/
def homeSearchStrategy (s : GameSettings) (commandHistory : List DriveMessage)
    (r1 : ℚ) : DriveMessage :=
  let command := DriveMessage.setModeAutomatic {}
  let homeTurns := countGoals Goal.SEEK_HOME_TURN commandHistory
  if homeTurns < 5 then
    let angle : ℤ := 60
    ((command.setGoalSeekHomeTurn).setSpeed s.MAX_SPEED).makeTurn angle
  else
    let command := command.setGoalGo2Base
    let minDistanceMm : ℚ := 200
    let maxRandomDistanceMm : ℚ := 700
    let distance : ℚ := minDistanceMm + ⌊r1 * maxRandomDistanceMm⌋
    (command.setSpeed s.MAX_SPEED).drive distance

/-- `navigation.js` `calculateBallDirections(bBox, obstacleFound, response)`.
The capture branch reads `commandHistory[commandHistory.length - 1].goal`
without a guard; on an empty history that JS member access throws, embedded
here as `Except.error`. -/
def calculateBallDirections (s : GameSettings) (commandHistory : List DriveMessage)
    (bBox : Detection) (obstacleFound : Bool) (response : List Detection)
    (r1 r2 : ℚ) : Except String DriveMessage :=
  let angle := findAngle bBox s
  let distance := findDistanceMM bBox s.BALL_SIZE_MM s
  let command := DriveMessage.setModeAutomatic {}
  let slowApproachZoneMm : ℚ := 250
  let ballCaptureDistanceMm : ℤ := 70
  let ballCaptureAngle : ℤ := 10
  let EXTRA_DISTANCE : ℚ := 30
  if |angle| ≤ ballCaptureAngle ∧ distance ≤ ballCaptureDistanceMm then
    match commandHistory.getLast? with
    | none => Except.error "TypeError: cannot read goal of undefined"
    | some lastCommand =>
      if lastCommand.goal = some Goal.CHECK_GRIP then
        Except.ok command.setGoalGo2Base
      else
        Except.ok ((((command.gripperClose).setGoalCheck4Grip).setSpeed
          (s.MAX_SPEED / 2)).drive (-slowApproachZoneMm))
  else
    if (distance : ℚ) < slowApproachZoneMm then
      Except.ok (((((command.setGoalGo2Ball).makeTurn angle).gripperOpen).setSpeed
        (s.MAX_SPEED * (5 / 100))).drive ((distance : ℚ) + EXTRA_DISTANCE))
    else if obstacleFound then
      Except.ok (ballSearchStrategy s commandHistory r1 r2)
    else
      Except.ok ((((command.setGoalGo2Ball).makeTurn angle).setSpeed
        s.MAX_SPEED).drive ((distance : ℚ) - slowApproachZoneMm * (5 / 10)))

/-- `navigation.js` `calculateHomeDirections(bBox, obstacleFound, response)`. -/
def calculateHomeDirections (s : GameSettings) (commandHistory : List DriveMessage)
    (bBox : Detection) (obstacleFound : Bool) (response : List Detection)
    (r1 : ℚ) : DriveMessage :=
  let angle := findAngle bBox s
  let distance := findDistanceMM bBox s.HOME_SIZE_MM s
  let command := DriveMessage.setModeAutomatic {}
  let BALL_RELEASE_DISTANCE : ℚ := 850
  let EXTRA_DISTANCE : ℚ := 100
  if (distance : ℚ) < BALL_RELEASE_DISTANCE then
    ((((((((((command.addBallCount).gripperOpen).setSpeed
      (s.MAX_SPEED / 10)).drive (-100)).setSpeed s.MAX_SPEED).drive
      (-1000)).setSpeed (TURN_SPEED s)).turnRight 90).gripperClose).setGoalGo2Ball)
  else if obstacleFound then
    homeSearchStrategy s commandHistory r1
  else
    ((((command.setGoalGo2Base).setSpeed (TURN_SPEED s)).makeTurn
      angle).setSpeed s.MAX_SPEED).drive ((distance : ℚ) - BALL_RELEASE_DISTANCE + EXTRA_DISTANCE)

/-- The car state carried by a sensor message (`carState`); `obstacleFound`
is optional in the source. -/
structure CarState where
  ballsCollected : ℕ
  color : List Char
  obstacleFound : Option Bool
  deriving DecidableEq, Repr

/-- One inbound sensor observation, as read by `nextMove`: `carState` may be
structurally missing, `timestampMs` is the correlation source. -/
structure SensorMessage where
  carState : Option CarState
  timestampMs : ℕ
  deriving DecidableEq, Repr

/-- `carState.obstacleFound != undefined && carState.obstacleFound`. -/
def obstacleFlag (cs : CarState) : Bool := cs.obstacleFound = some true

/-- `navigation.js` `navigate2home(sensorMessage)`.  The perception call
(`Vision.recognizeObjects`) is the external collaborator; its successful
response is the `vision` argument. -/
def navigate2home (s : GameSettings) (sensorMessage : SensorMessage) (cs : CarState)
    (commandHistory : List DriveMessage) (vision : List Detection)
    (r1 : ℚ) : Except String DriveMessage :=
  let objectLabel := cs.color ++ HOME_LABEL_SUFFIX
  let bBox := findNearestObject objectLabel vision
  let obstacle_found := obstacleFlag cs
  let command :=
    match bBox with
    | some bBox => calculateHomeDirections s commandHistory bBox obstacle_found vision r1
    | none => homeSearchStrategy s commandHistory r1
  Except.ok ((command.setCorrelationID sensorMessage.timestampMs).sendSensorMessage)

/-- `navigation.js` `navigate2ball(sensorMessage)`.  The simulation shortcut
(`driveSimulation.simulate`, module absent from the sources and outside the
spec's scope) is modelled in its Off state; the perception response is the
`vision` argument. -/
def navigate2ball (s : GameSettings) (sensorMessage : SensorMessage) (cs : CarState)
    (commandHistory : List DriveMessage) (vision : List Detection)
    (r1 r2 : ℚ) : Except String DriveMessage :=
  let objectLabel := cs.color ++ BALL_LABEL_SUFFIX
  let bBox := findNearestObject objectLabel vision
  let obstacle_found := obstacleFlag cs
  match bBox with
  | some bBox =>
    (calculateBallDirections s commandHistory bBox obstacle_found vision r1 r2).map
      (fun command => (command.setCorrelationID sensorMessage.timestampMs).sendSensorMessage)
  | none =>
    Except.ok (((ballSearchStrategy s commandHistory r1 r2).setCorrelationID
      sensorMessage.timestampMs).sendSensorMessage)

/-- `navigation.js` `gameOver(sensorMessage)`: terminal GAME_END command,
mode left unchanged. -/
def gameOver (sensorMessage : SensorMessage) : DriveMessage :=
  let command : DriveMessage := {}
  ((command.setCorrelationID sensorMessage.timestampMs).setGoalGameEnd).sendSensorMessage

/-- `navigation.js` `nextMove(sensorMessage)`: objective selection and
dispatch.  The very first statement dereferences
`sensorMessage.carState.ballsCollected`, so a missing `carState` throws
before any branch is taken. -/
def nextMove (s : GameSettings) (sensorMessage : SensorMessage)
    (commandHistory : List DriveMessage) (vision : List Detection)
    (r1 r2 : ℚ) : Except String DriveMessage :=
  match sensorMessage.carState with
  | none => Except.error "TypeError: cannot read ballsCollected of undefined"
  | some carState =>
    if 0 < countGoals Goal.GO2BASE commandHistory ∨
        0 < countGoals Goal.SEEK_HOME_TURN commandHistory then
      navigate2home s sensorMessage carState commandHistory vision r1
    else if carState.ballsCollected < s.BALLS_NEEDED then
      navigate2ball s sensorMessage carState commandHistory vision r1 r2
    else
      Except.ok (gameOver sensorMessage)

/-- State of the ingestion validator in the controller main module
(`maxMsgTimeStampMs` and the two rejection counters). -/
structure MsgState where
  maxMsgTimeStampMs : ℤ
  rejectedFormatMessages : ℕ
  rejectedOutOfOrderMessages : ℕ
  deriving DecidableEq, Repr

/-- `const MAX_MSG_AGE_SEC = 60`. -/
def MAX_MSG_AGE_SEC : ℤ := 60

/-- `isMessageValid(msg)` of the controller main module.  `timestampMs = 0`
models a falsy `msg.timestampMs` (absent or zero); `nowMs` is the injected
clock (`new Date().getTime()`).  Returns the verdict together with the
updated module state; note the source updates `maxMsgTimeStampMs` before the
freshness check. -/
def isMessageValid (timestampMs nowMs : ℤ) (st : MsgState) : Bool × MsgState :=
  if timestampMs = 0 then
    (false, { st with rejectedFormatMessages := st.rejectedFormatMessages + 1 })
  else if st.maxMsgTimeStampMs > timestampMs then
    (false, { st with rejectedOutOfOrderMessages := st.rejectedOutOfOrderMessages + 1 })
  else
    let st := { st with maxMsgTimeStampMs := timestampMs }
    let oldestAllowedMs := nowMs - MAX_MSG_AGE_SEC * 1000
    if timestampMs < oldestAllowedMs then
      (false, { st with rejectedOutOfOrderMessages := st.rejectedOutOfOrderMessages + 1 })
    else
      (true, st)

/-! ### Concrete example values used by witnesses and counterexamples -/

/-- A concrete settings record for closed statements. -/
def s100 : GameSettings :=
  { MAX_SPEED := 100, BALLS_NEEDED := 1, MIN_DISTANCE_TO_CAMERA_MM := 0,
    BALL_SIZE_MM := 10, HOME_SIZE_MM := 200,
    camera := { H_FIELD_OF_VIEW := 60, FOCAL_LENGTH_MM := 1, SENSOR_HEIGHT_MM := 1 } }

/-- A centered red-ball detection whose computed angle is 0 and corrected
distance is 20 mm under `s100`: it satisfies the capture condition. -/
def dCap : Detection :=
  { label := "red_ball".toList, score := 9 / 10, x := 2 / 5, y := 3 / 10,
    w := 1 / 5, h := 1 / 5 }

/-- A complete sensor message (no balls collected yet, color red). -/
def msg0 : SensorMessage :=
  { carState := some { ballsCollected := 0, color := "red".toList, obstacleFound := none },
    timestampMs := 7 }

/-- A complete sensor message whose car already carries the one needed ball. -/
def msgDone : SensorMessage :=
  { carState := some { ballsCollected := 1, color := "red".toList, obstacleFound := none },
    timestampMs := 7 }

/-- A history of five consecutive SEEK_HOME_TURN commands. -/
def hist5home : List DriveMessage :=
  List.replicate 5 (DriveMessage.setGoalSeekHomeTurn {})

/-- A history of five consecutive SEEK_BALL_TURN commands. -/
def hist5ball : List DriveMessage :=
  List.replicate 5 (DriveMessage.setGoalSeekBallTurn {})

/-- A detection whose label strictly CONTAINS the target label "red_ball". -/
def dDark : Detection :=
  { label := "dark_red_ball".toList, score := 9 / 10, x := 0, y := 3 / 10,
    w := 1 / 5, h := 1 / 5 }

/-! ### C5: the two-band empirical distance correction -/

/-- C5: for every bounding box and object-size constants, `findDistanceMM`
first computes the pinhole value
`d = focalLength * realSize / (max(boxHeight, boxWidth) * sensorHeight) - minDistanceToCamera`,
then returns 20 mm whenever `d < 95`, returns `d - 35` (rounded) whenever
`95 ≤ d < 325`, and returns `d` unmodified (rounded) whenever `d ≥ 325`. -/
theorem findDistanceMM_bands (bBox : Detection) (realSize : ℚ) (s : GameSettings) :
    (s.camera.FOCAL_LENGTH_MM * realSize / (max bBox.h bBox.w * s.camera.SENSOR_HEIGHT_MM)
        - s.MIN_DISTANCE_TO_CAMERA_MM < 95 →
      findDistanceMM bBox realSize s = 20) ∧
    (95 ≤ s.camera.FOCAL_LENGTH_MM * realSize / (max bBox.h bBox.w * s.camera.SENSOR_HEIGHT_MM)
        - s.MIN_DISTANCE_TO_CAMERA_MM →
      s.camera.FOCAL_LENGTH_MM * realSize / (max bBox.h bBox.w * s.camera.SENSOR_HEIGHT_MM)
        - s.MIN_DISTANCE_TO_CAMERA_MM < 325 →
      findDistanceMM bBox realSize s =
        jsRound (s.camera.FOCAL_LENGTH_MM * realSize /
          (max bBox.h bBox.w * s.camera.SENSOR_HEIGHT_MM)
          - s.MIN_DISTANCE_TO_CAMERA_MM - 35)) ∧
    (325 ≤ s.camera.FOCAL_LENGTH_MM * realSize / (max bBox.h bBox.w * s.camera.SENSOR_HEIGHT_MM)
        - s.MIN_DISTANCE_TO_CAMERA_MM →
      findDistanceMM bBox realSize s =
        jsRound (s.camera.FOCAL_LENGTH_MM * realSize /
          (max bBox.h bBox.w * s.camera.SENSOR_HEIGHT_MM)
          - s.MIN_DISTANCE_TO_CAMERA_MM)) := by
  refine ⟨fun h1 => ?_, fun h1 h2 => ?_, fun h1 => ?_⟩ <;>
    simp only [findDistanceMM]
  · rw [if_pos h1]
    with_unfolding_all decide
  · rw [if_neg (not_lt.mpr h1), if_pos h2]
  · rw [if_neg (not_lt.mpr (by linarith)), if_neg (not_lt.mpr h1)]

/-- Witness for C5: one concrete box in each band (pinhole values 50, 200 and
1000 under `s100` with real sizes 10, 40 and 200). -/
theorem findDistanceMM_bands_witness :
    findDistanceMM dCap 10 s100 = 20 ∧
    findDistanceMM dCap 40 s100 = 165 ∧
    findDistanceMM dCap 200 s100 = 1000 := by
  refine ⟨(findDistanceMM_bands dCap 10 s100).1 (by with_unfolding_all decide), ?_, ?_⟩
  · have h := (findDistanceMM_bands dCap 40 s100).2.1 (by with_unfolding_all decide)
      (by with_unfolding_all decide)
    rw [h]
    with_unfolding_all decide
  · have h := (findDistanceMM_bands dCap 200 s100).2.2 (by with_unfolding_all decide)
    rw [h]
    with_unfolding_all decide

/-! ### C8: monotonicity of the angle estimator -/

/-- C8 counterexample: the returned angle is integer-rounded, so it is not
strictly monotonic in the horizontal center: these two boxes have strictly
increasing centers (1/2 and 1/2 + 1/1000) yet equal returned angles. -/
theorem findAngle_not_strictly_monotone :
    ({ label := [], score := 1, x := 2 / 5, y := 0, w := 1 / 5, h := 1 / 5 } : Detection).x
        + ({ label := [], score := 1, x := 2 / 5, y := 0, w := 1 / 5, h := 1 / 5 } : Detection).w / 2
      < ({ label := [], score := 1, x := 401 / 1000, y := 0, w := 1 / 5, h := 1 / 5 } : Detection).x
        + ({ label := [], score := 1, x := 401 / 1000, y := 0, w := 1 / 5, h := 1 / 5 } : Detection).w / 2 ∧
    findAngle { label := [], score := 1, x := 2 / 5, y := 0, w := 1 / 5, h := 1 / 5 } s100 =
      findAngle { label := [], score := 1, x := 401 / 1000, y := 0, w := 1 / 5, h := 1 / 5 } s100 := by
  constructor
  · with_unfolding_all decide
  · with_unfolding_all decide

/-- C8 amended: the angle estimator is weakly monotonic in the box's
horizontal center: with the same nonnegative field-of-view, a center no
greater than another yields a returned angle no greater (the unrounded angle
is strictly monotonic, but integer rounding can merge nearby centers). -/
theorem findAngle_monotone (b1 b2 : Detection) (s : GameSettings)
    (hfov : 0 ≤ s.camera.H_FIELD_OF_VIEW)
    (hc : b1.x + b1.w / 2 ≤ b2.x + b2.w / 2) :
    findAngle b1 s ≤ findAngle b2 s := by
  simp only [findAngle, jsRound]
  apply Int.floor_le_floor
  have hmul : (b1.x + b1.w / 2 - 1 / 2) * s.camera.H_FIELD_OF_VIEW * (75 / 100) ≤
      (b2.x + b2.w / 2 - 1 / 2) * s.camera.H_FIELD_OF_VIEW * (75 / 100) := by
    have h1 : b1.x + b1.w / 2 - 1 / 2 ≤ b2.x + b2.w / 2 - 1 / 2 := by linarith
    nlinarith
  linarith

/-- Witness for C8: applying the monotonicity theorem at two concrete boxes. -/
theorem findAngle_monotone_witness :
    findAngle { label := [], score := 1, x := 2 / 5, y := 0, w := 1 / 5, h := 1 / 5 } s100 ≤
      findAngle { label := [], score := 1, x := 3 / 5, y := 0, w := 1 / 5, h := 1 / 5 } s100 :=
  findAngle_monotone _ _ s100 (by with_unfolding_all decide) (by with_unfolding_all decide)

/-! ### C9: ingestion timestamp validation -/

/-- C9 counterexample: the validator admits a message whose timestamp EQUALS
the maximum seen so far (the source rejects only strictly older timestamps),
so "admits only if strictly greater than the maximum" is false. -/
theorem isMessageValid_admits_equal_timestamp :
    (5 : ℤ) ≤ 5 ∧
    (isMessageValid 5 5
      { maxMsgTimeStampMs := 5, rejectedFormatMessages := 0,
        rejectedOutOfOrderMessages := 0 }).1 = true := by
  exact ⟨by decide, by decide⟩

/-- C9 amended: the validator admits a message only if its timestamp is
greater than OR EQUAL TO the maximum seen so far; every message with a
present (nonzero) timestamp strictly below that maximum is rejected,
incrementing the stale/out-of-order counter and leaving the rest of the
state unchanged. -/
theorem isMessageValid_stale_rejection (timestampMs nowMs : ℤ) (st : MsgState) :
    ((isMessageValid timestampMs nowMs st).1 = true →
      st.maxMsgTimeStampMs ≤ timestampMs) ∧
    (timestampMs ≠ 0 → timestampMs < st.maxMsgTimeStampMs →
      isMessageValid timestampMs nowMs st =
        (false, { st with rejectedOutOfOrderMessages :=
          st.rejectedOutOfOrderMessages + 1 })) := by
  constructor
  · intro h
    simp only [isMessageValid] at h
    split_ifs at h with h0 h1 h2
    · omega
  · intro h0 hlt
    simp only [isMessageValid]
    rw [if_neg h0, if_pos (by omega : st.maxMsgTimeStampMs > timestampMs)]

/-- Witness for C9: a message stamped 3 against a maximum of 5 is rejected
with the stale counter incremented. -/
theorem isMessageValid_stale_rejection_witness :
    isMessageValid 3 0
      { maxMsgTimeStampMs := 5, rejectedFormatMessages := 0,
        rejectedOutOfOrderMessages := 0 } =
      (false,
        { maxMsgTimeStampMs := 5, rejectedFormatMessages := 0,
          rejectedOutOfOrderMessages := 1 }) :=
  (isMessageValid_stale_rejection 3 0 _).2 (by decide) (by decide)

/-! ### C6: search strategy, turn branch -/

/-- C6 counterexample: the home-seeking turn command is issued at FULL
`MAX_SPEED`, not at the reduced turn speed the claim states (with
`MAX_SPEED = 100` the speed action carries 100, and the reduced turn speed
would be 100/10). -/
theorem homeSearchStrategy_full_speed_cex :
    (homeSearchStrategy s100 [] 0).actions =
      [Action.setSpeed 100, Action.makeTurn 60] ∧
    (100 : ℚ) ≠ TURN_SPEED s100 := by
  constructor
  · rfl
  · with_unfolding_all decide

/-- C6 amended: while the consecutive count of the active seek-turn goal is
below 5 the search strategy emits a turn-only command: automatic mode, tagged
with the seek-turn goal, a rotation of exactly 67° when seeking a ball at the
reduced turn speed, and of exactly 60° when seeking home — but at full
`MAX_SPEED`, not a reduced speed, in the home case. -/
theorem searchStrategy_turn_branch (s : GameSettings) (hist : List DriveMessage)
    (r1 r2 : ℚ) :
    (countGoals Goal.SEEK_BALL_TURN hist < 5 →
      ballSearchStrategy s hist r1 r2 =
        { mode := some Mode.AUTOMATIC, goal := some Goal.SEEK_BALL_TURN,
          correlationId := none,
          actions := [Action.setSpeed (TURN_SPEED s), Action.makeTurn 67],
          ballCount := 0 }) ∧
    (countGoals Goal.SEEK_HOME_TURN hist < 5 →
      homeSearchStrategy s hist r1 =
        { mode := some Mode.AUTOMATIC, goal := some Goal.SEEK_HOME_TURN,
          correlationId := none,
          actions := [Action.setSpeed s.MAX_SPEED, Action.makeTurn 60],
          ballCount := 0 }) := by
  constructor
  · intro h
    simp only [ballSearchStrategy]
    rw [if_pos h]
    rfl
  · intro h
    simp only [homeSearchStrategy]
    rw [if_pos h]
    rfl

/-- Witness for C6: empty history (zero consecutive turns) in both cases. -/
theorem searchStrategy_turn_branch_witness :
    ballSearchStrategy s100 [] 0 0 =
      { mode := some Mode.AUTOMATIC, goal := some Goal.SEEK_BALL_TURN,
        correlationId := none,
        actions := [Action.setSpeed (TURN_SPEED s100), Action.makeTurn 67],
        ballCount := 0 } ∧
    homeSearchStrategy s100 [] 0 =
      { mode := some Mode.AUTOMATIC, goal := some Goal.SEEK_HOME_TURN,
        correlationId := none,
        actions := [Action.setSpeed s100.MAX_SPEED, Action.makeTurn 60],
        ballCount := 0 } :=
  ⟨(searchStrategy_turn_branch s100 [] 0 0).1 (by decide),
   (searchStrategy_turn_branch s100 [] 0 0).2 (by decide)⟩

/-! ### C7: search strategy, relocation branch -/

/-- C7 counterexample: after five consecutive SEEK_HOME_TURN commands the
home relocation command is tagged GO2BASE — not a seek-move goal — and its
speed action carries full `MAX_SPEED` (100 here), not a reduced speed. -/
theorem homeSearchStrategy_relocation_goal_cex :
    (homeSearchStrategy s100 hist5home 0).goal = some Goal.GO2BASE ∧
    Goal.GO2BASE ≠ Goal.SEEK_BALL_MOVE ∧
    (homeSearchStrategy s100 hist5home 0).actions =
      [Action.setSpeed 100, Action.drive 200] ∧
    (100 : ℚ) ≠ TURN_SPEED s100 := by
  refine ⟨?_, by decide, ?_, by with_unfolding_all decide⟩
  · with_unfolding_all decide
  · with_unfolding_all decide

/-- C7 amended: once the consecutive count of the active seek-turn goal has
reached 5, the strategy emits a relocation command.  Ball case: tagged
SEEK_BALL_MOVE at the reduced turn speed, drive distance
`100 + ⌊600·r1⌋ ∈ [100,700)`, sign-reversed exactly when the second draw is
below 1/4.  Home case: tagged GO2BASE (not a seek-move goal) at full
`MAX_SPEED`, drive distance `200 + ⌊700·r1⌋ ∈ [200,900)`, never reversed. -/
theorem searchStrategy_relocation_branch (s : GameSettings) (hist : List DriveMessage)
    (r1 r2 : ℚ) (hr0 : 0 ≤ r1) (hr1 : r1 < 1) :
    (¬ countGoals Goal.SEEK_BALL_TURN hist < 5 →
      ballSearchStrategy s hist r1 r2 =
        { mode := some Mode.AUTOMATIC, goal := some Goal.SEEK_BALL_MOVE,
          correlationId := none,
          actions := [Action.setSpeed (TURN_SPEED s),
            Action.drive (if r2 < 25 / 100 then -(100 + (⌊r1 * 600⌋ : ℚ))
              else 100 + (⌊r1 * 600⌋ : ℚ))],
          ballCount := 0 } ∧
      100 ≤ 100 + (⌊r1 * 600⌋ : ℚ) ∧ 100 + (⌊r1 * 600⌋ : ℚ) < 700) ∧
    (¬ countGoals Goal.SEEK_HOME_TURN hist < 5 →
      homeSearchStrategy s hist r1 =
        { mode := some Mode.AUTOMATIC, goal := some Goal.GO2BASE,
          correlationId := none,
          actions := [Action.setSpeed s.MAX_SPEED,
            Action.drive (200 + (⌊r1 * 700⌋ : ℚ))],
          ballCount := 0 } ∧
      200 ≤ 200 + (⌊r1 * 700⌋ : ℚ) ∧ 200 + (⌊r1 * 700⌋ : ℚ) < 900) := by
  have floor_bounds : ∀ m : ℚ, 0 < m → 0 ≤ (⌊r1 * m⌋ : ℚ) ∧ (⌊r1 * m⌋ : ℚ) < m := by
    intro m hm
    constructor
    · exact_mod_cast Int.floor_nonneg.mpr (mul_nonneg hr0 hm.le)
    · calc (⌊r1 * m⌋ : ℚ) ≤ r1 * m := Int.floor_le _
        _ < 1 * m := by nlinarith
        _ = m := one_mul m
  constructor
  · intro h
    have hb := floor_bounds 600 (by norm_num)
    refine ⟨?_, by linarith [hb.1], by linarith [hb.2]⟩
    simp only [ballSearchStrategy]
    rw [if_neg h]
    rfl
  · intro h
    have hb := floor_bounds 700 (by norm_num)
    refine ⟨?_, by linarith [hb.1], by linarith [hb.2]⟩
    simp only [homeSearchStrategy]
    rw [if_neg h]
    rfl

/-- Witness for C7: five prior turns in each case, with draws r1 = 0,
r2 = 0. -/
theorem searchStrategy_relocation_branch_witness :
    (ballSearchStrategy s100 hist5ball 0 0).goal = some Goal.SEEK_BALL_MOVE ∧
    (homeSearchStrategy s100 hist5home 0).goal = some Goal.GO2BASE := by
  have hb := (searchStrategy_relocation_branch s100 hist5ball 0 0
    (by decide) (by decide)).1 (by decide)
  have hh := (searchStrategy_relocation_branch s100 hist5home 0 0
    (by decide) (by decide)).2 (by decide)
  exact ⟨by rw [hb.1], by rw [hh.1]⟩

/-! ### C1: objective selection order in nextMove -/

/-- C1: for every structurally complete observation and every history,
`nextMove` selects the objective in this order, first match wins: a positive
consecutive count of GO2BASE or SEEK_HOME_TURN commits to return-to-base;
otherwise fewer balls collected than needed selects seek-and-capture-ball;
otherwise a terminal command tagged GAME_END is produced. -/
theorem nextMove_objective_order (s : GameSettings) (msg : SensorMessage) (cs : CarState)
    (hist : List DriveMessage) (vision : List Detection) (r1 r2 : ℚ)
    (hcs : msg.carState = some cs) :
    (0 < countGoals Goal.GO2BASE hist ∨ 0 < countGoals Goal.SEEK_HOME_TURN hist →
      nextMove s msg hist vision r1 r2 = navigate2home s msg cs hist vision r1) ∧
    (¬ (0 < countGoals Goal.GO2BASE hist ∨ 0 < countGoals Goal.SEEK_HOME_TURN hist) →
      cs.ballsCollected < s.BALLS_NEEDED →
      nextMove s msg hist vision r1 r2 = navigate2ball s msg cs hist vision r1 r2) ∧
    (¬ (0 < countGoals Goal.GO2BASE hist ∨ 0 < countGoals Goal.SEEK_HOME_TURN hist) →
      ¬ cs.ballsCollected < s.BALLS_NEEDED →
      nextMove s msg hist vision r1 r2 = Except.ok (gameOver msg) ∧
        (gameOver msg).goal = some Goal.GAME_END) := by
  simp only [nextMove, hcs]
  exact ⟨fun h => by rw [if_pos h],
    fun h1 h2 => by rw [if_neg h1, if_pos h2],
    fun h1 h2 => ⟨by rw [if_neg h1, if_neg h2], rfl⟩⟩

/-- Witness for C1: a history ending in GO2BASE commits to return-to-base,
and a full ball count with a quiet history ends the game. -/
theorem nextMove_objective_order_witness :
    nextMove s100 msg0 [DriveMessage.setGoalGo2Base {}] [] 0 0 =
      navigate2home s100 msg0
        { ballsCollected := 0, color := "red".toList, obstacleFound := none }
        [DriveMessage.setGoalGo2Base {}] [] 0 ∧
    nextMove s100 msgDone [] [] 0 0 = Except.ok (gameOver msgDone) :=
  ⟨(nextMove_objective_order s100 msg0 _ _ [] 0 0 rfl).1 (by decide),
   ((nextMove_objective_order s100 _ _ [] [] 0 0 rfl).2.2 (by decide) (by decide)).1⟩

/-! ### C2: the capture branch of calculateBallDirections -/

/-- C2 counterexample: for a captured ball (angle 0, corrected distance
20 mm ≤ 70) with an EMPTY command history, the engine does not emit the
close-gripper CHECK_GRIP command the claim requires for the "otherwise"
case: the unguarded read of `commandHistory[length - 1].goal` throws. -/
theorem calculateBallDirections_empty_history_throws :
    |findAngle dCap s100| ≤ 10 ∧
    findDistanceMM dCap s100.BALL_SIZE_MM s100 ≤ 70 ∧
    calculateBallDirections s100 [] dCap false [] 0 0 =
      Except.error "TypeError: cannot read goal of undefined" := by
  refine ⟨by with_unfolding_all decide, by with_unfolding_all decide, ?_⟩
  with_unfolding_all rfl

/-- C2 amended: for every NONEMPTY command history and every ball detection
whose computed angle satisfies `|angle| ≤ 10` and computed distance satisfies
`distance ≤ 70`: if the most recent command's goal is CHECK_GRIP the engine
emits a GO2BASE-tagged command with no physical actions, and otherwise a
command that closes the gripper, is tagged CHECK_GRIP, sets speed to half the
maximum, and drives backward 250 mm. -/
theorem calculateBallDirections_capture_branch (s : GameSettings)
    (hist : List DriveMessage) (bBox : Detection) (obst : Bool)
    (resp : List Detection) (r1 r2 : ℚ) (lastCommand : DriveMessage)
    (hlast : hist.getLast? = some lastCommand)
    (hang : |findAngle bBox s| ≤ 10)
    (hdist : findDistanceMM bBox s.BALL_SIZE_MM s ≤ 70) :
    (lastCommand.goal = some Goal.CHECK_GRIP →
      calculateBallDirections s hist bBox obst resp r1 r2 =
        Except.ok
          { mode := some Mode.AUTOMATIC, goal := some Goal.GO2BASE,
            correlationId := none, actions := [], ballCount := 0 }) ∧
    (lastCommand.goal ≠ some Goal.CHECK_GRIP →
      calculateBallDirections s hist bBox obst resp r1 r2 =
        Except.ok
          { mode := some Mode.AUTOMATIC, goal := some Goal.CHECK_GRIP,
            correlationId := none,
            actions := [Action.gripperClose, Action.setSpeed (s.MAX_SPEED / 2),
              Action.drive (-250)],
            ballCount := 0 }) := by
  constructor <;> intro hg <;>
    simp only [calculateBallDirections, hlast] <;>
    rw [if_pos ⟨hang, hdist⟩]
  · rw [if_pos hg]
    rfl
  · rw [if_neg hg]
    rfl

/-- Witness for C2: concrete captured ball against a single-command history
whose last goal is CHECK_GRIP. -/
theorem calculateBallDirections_capture_branch_witness :
    calculateBallDirections s100 [DriveMessage.setGoalCheck4Grip {}] dCap false [] 0 0 =
      Except.ok
        { mode := some Mode.AUTOMATIC, goal := some Goal.GO2BASE,
          correlationId := none, actions := [], ballCount := 0 } :=
  (calculateBallDirections_capture_branch s100 [DriveMessage.setGoalCheck4Grip {}]
    dCap false [] 0 0 (DriveMessage.setGoalCheck4Grip {}) rfl
    (by with_unfolding_all decide) (by with_unfolding_all decide)).1 rfl

/-! ### C3: totality of decide on complete observations -/

/-- C3 (code bug): the decide operation CAN fail on a structurally complete
observation: with an empty command history and a captured ball in view
(`dCap`: angle 0, corrected distance 20 ≤ 70), the capture branch reads the
goal of the last history entry, which does not exist, and the decision cycle
errors instead of producing a DriveCommand.  The spec explicitly includes the
empty history in the no-error contract. -/
theorem nextMove_capture_empty_history_error :
    msg0.carState.isSome = true ∧
    nextMove s100 msg0 [] [dCap] 0 0 =
      Except.error "TypeError: cannot read goal of undefined" := by
  refine ⟨rfl, ?_⟩
  with_unfolding_all rfl

/-! ### C10: label matching is case-insensitive substring containment -/

/-- C10: the best-match selection's label test holds exactly when the
lowercased detection label contains the lowercased target label as a
substring (so a detection labeled "dark_red_ball" is selected for target
"red_ball"), and the ball false-positive filter applies exactly to
detections whose lowercased label contains the lowercased ball suffix (with
low score and high top edge). -/
theorem findNearestObject_label_containment :
    (∀ objectType obj, labelMatch objectType obj = true ↔
      toLowerStr objectType <:+: toLowerStr obj.label) ∧
    (∀ obj : Detection, isFalsePositiveBall obj = true ↔
      (toLowerStr BALL_LABEL_SUFFIX <:+: toLowerStr obj.label ∧
        obj.score < HIGH_BALL_SCORE ∧ obj.y < HIGH_BALL_TOP_BOUND)) ∧
    findNearestObject ("red_ball".toList) [dDark] = some dDark := by
  refine ⟨?_, ?_, ?_⟩
  · intro objectType obj
    simp [labelMatch, jsContains]
  · intro obj
    simp [isFalsePositiveBall, jsContains, Bool.and_eq_true, decide_eq_true_iff,
      and_assoc]
  · with_unfolding_all rfl

/-! ### C4: best-match selection -/

/-- A detection that participates in the selection: it passes the
false-positive filter and matches the target label. -/
def isSurvivor (objectType : List Char) (obj : Detection) : Bool :=
  !isFalsePositiveBall obj && labelMatch objectType obj

/-- Two label-matching survivors with the same size-score value, differing
only in their x coordinate. -/
def dTieA : Detection :=
  { label := "red_ball".toList, score := 1 / 2, x := 1 / 10, y := 3 / 10,
    w := 1 / 5, h := 1 / 5 }

/-- See `dTieA`; this one sits later in the detection list. -/
def dTieB : Detection :=
  { label := "red_ball".toList, score := 1 / 2, x := 9 / 10, y := 3 / 10,
    w := 1 / 5, h := 1 / 5 }

/-- Characterization of the selection loop when it returns a detection:
either it kept the incoming candidate (and no survivor in the scan list beats
the incoming threshold), or the result sits somewhere in the scan list,
strictly beats the threshold and all survivors scanned before it, and is at
least as large as all survivors scanned after it. -/
theorem findNearestGo_some (objectType : List Char) :
    ∀ (r : List Detection) (fs : ℚ) (best : Option Detection) (o : Detection),
      findNearestGo objectType r fs best = some o →
      (best = some o ∧ ∀ d ∈ r, isSurvivor objectType d = true → detSize d ≤ fs) ∨
      (∃ r₁ r₂, r = r₁ ++ o :: r₂ ∧ isSurvivor objectType o = true ∧ fs < detSize o ∧
        (∀ d ∈ r₁, isSurvivor objectType d = true → detSize d < detSize o) ∧
        (∀ d ∈ r₂, isSurvivor objectType d = true → detSize d ≤ detSize o)) := by
  intro r
  induction r with
  | nil =>
    intro fs best o h
    exact Or.inl ⟨h, by simp⟩
  | cons obj rest ih =>
    intro fs best o h
    simp only [findNearestGo] at h
    by_cases hfp : isFalsePositiveBall obj
    · rw [if_pos hfp] at h
      rcases ih fs best o h with ⟨hb, hall⟩ | ⟨r₁, r₂, heq, hs, hfs, h₁, h₂⟩
      · refine Or.inl ⟨hb, fun d hd hsd => ?_⟩
        rcases List.mem_cons.mp hd with rfl | hd'
        · exact absurd hsd (by simp [isSurvivor, hfp])
        · exact hall d hd' hsd
      · refine Or.inr ⟨obj :: r₁, r₂, by rw [heq, List.cons_append], hs, hfs,
          fun d hd hsd => ?_, h₂⟩
        rcases List.mem_cons.mp hd with rfl | hd'
        · exact absurd hsd (by simp [isSurvivor, hfp])
        · exact h₁ d hd' hsd
    · rw [if_neg hfp] at h
      by_cases hm : labelMatch objectType obj
      · rw [if_pos hm] at h
        by_cases hlt : fs < detSize obj
        · rw [if_pos hlt] at h
          rcases ih (detSize obj) (some obj) o h with ⟨hb, hall⟩ | ⟨r₁, r₂, heq, hs, hfs, h₁, h₂⟩
          · obtain rfl : obj = o := Option.some.inj hb
            exact Or.inr ⟨[], rest, by simp, by simp [isSurvivor, hfp, hm], hlt,
              by simp, hall⟩
          · refine Or.inr ⟨obj :: r₁, r₂, by rw [heq, List.cons_append], hs,
              lt_trans hlt hfs, fun d hd hsd => ?_, h₂⟩
            rcases List.mem_cons.mp hd with rfl | hd'
            · exact hfs
            · exact h₁ d hd' hsd
        · rw [if_neg hlt] at h
          rcases ih fs best o h with ⟨hb, hall⟩ | ⟨r₁, r₂, heq, hs, hfs, h₁, h₂⟩
          · refine Or.inl ⟨hb, fun d hd hsd => ?_⟩
            rcases List.mem_cons.mp hd with rfl | hd'
            · exact le_of_not_lt hlt
            · exact hall d hd' hsd
          · refine Or.inr ⟨obj :: r₁, r₂, by rw [heq, List.cons_append], hs, hfs,
              fun d hd hsd => ?_, h₂⟩
            rcases List.mem_cons.mp hd with rfl | hd'
            · exact lt_of_le_of_lt (le_of_not_lt hlt) hfs
            · exact h₁ d hd' hsd
      · rw [if_neg hm] at h
        rcases ih fs best o h with ⟨hb, hall⟩ | ⟨r₁, r₂, heq, hs, hfs, h₁, h₂⟩
        · refine Or.inl ⟨hb, fun d hd hsd => ?_⟩
          rcases List.mem_cons.mp hd with rfl | hd'
          · exact absurd hsd (by simp [isSurvivor, hm])
          · exact hall d hd' hsd
        · refine Or.inr ⟨obj :: r₁, r₂, by rw [heq, List.cons_append], hs, hfs,
            fun d hd hsd => ?_, h₂⟩
          rcases List.mem_cons.mp hd with rfl | hd'
          · exact absurd hsd (by simp [isSurvivor, hm])
          · exact h₁ d hd' hsd

/-- When the selection loop returns nothing, it started with no candidate and
no survivor in the scan list beats the threshold. -/
theorem findNearestGo_none (objectType : List Char) :
    ∀ (r : List Detection) (fs : ℚ) (best : Option Detection),
      findNearestGo objectType r fs best = none →
      best = none ∧ ∀ d ∈ r, isSurvivor objectType d = true → detSize d ≤ fs := by
  intro r
  induction r with
  | nil =>
    intro fs best h
    exact ⟨h, by simp⟩
  | cons obj rest ih =>
    intro fs best h
    simp only [findNearestGo] at h
    by_cases hfp : isFalsePositiveBall obj
    · rw [if_pos hfp] at h
      obtain ⟨hb, hall⟩ := ih fs best h
      refine ⟨hb, fun d hd hsd => ?_⟩
      rcases List.mem_cons.mp hd with rfl | hd'
      · exact absurd hsd (by simp [isSurvivor, hfp])
      · exact hall d hd' hsd
    · rw [if_neg hfp] at h
      by_cases hm : labelMatch objectType obj
      · rw [if_pos hm] at h
        by_cases hlt : fs < detSize obj
        · rw [if_pos hlt] at h
          exact absurd (ih _ _ h).1 (by simp)
        · rw [if_neg hlt] at h
          obtain ⟨hb, hall⟩ := ih fs best h
          refine ⟨hb, fun d hd hsd => ?_⟩
          rcases List.mem_cons.mp hd with rfl | hd'
          · exact le_of_not_lt hlt
          · exact hall d hd' hsd
      · rw [if_neg hm] at h
        obtain ⟨hb, hall⟩ := ih fs best h
        refine ⟨hb, fun d hd hsd => ?_⟩
        rcases List.mem_cons.mp hd with rfl | hd'
        · exact absurd hsd (by simp [isSurvivor, hm])
        · exact hall d hd' hsd

/-- C4 counterexample: two label-matching survivors tie on
`max(w,h) * score`, and the selection returns the LATER one in the detection
list (the backward scan with strict improvement keeps the last maximizer),
not the earliest as the claim states. -/
theorem findNearestObject_tie_keeps_latest_cex :
    isSurvivor ("red_ball".toList) dTieA = true ∧
    isSurvivor ("red_ball".toList) dTieB = true ∧
    detSize dTieA = detSize dTieB ∧
    dTieA ≠ dTieB ∧
    findNearestObject ("red_ball".toList) [dTieA, dTieB] = some dTieB := by
  refine ⟨by with_unfolding_all rfl, by with_unfolding_all rfl,
    by with_unfolding_all decide, by with_unfolding_all decide,
    by with_unfolding_all rfl⟩

/-- C4 amended: among the label-matching detections that survive the
false-positive filter, the selection returns one with POSITIVE size-score
value maximizing `max(w,h) * score`, and on ties the LATEST detection in the
list is selected (every surviving detection after the returned one is
strictly smaller); whenever some survivor has positive value, a detection is
returned. -/
theorem findNearestObject_best_match (objectType : List Char) (l : List Detection) :
    (∀ o, findNearestObject objectType l = some o →
      isSurvivor objectType o = true ∧ 0 < detSize o ∧
      (∀ d ∈ l, isSurvivor objectType d = true → detSize d ≤ detSize o) ∧
      ∃ l₁ l₂, l = l₁ ++ o :: l₂ ∧
        ∀ d ∈ l₂, isSurvivor objectType d = true → detSize d < detSize o) ∧
    ((∃ d, d ∈ l ∧ isSurvivor objectType d = true ∧ 0 < detSize d) →
      findNearestObject objectType l ≠ none) := by
  constructor
  · intro o h
    rcases findNearestGo_some objectType l.reverse 0 none o h with
      ⟨hb, -⟩ | ⟨r₁, r₂, heq, hs, hfs, h₁, h₂⟩
    · exact Option.noConfusion hb
    · have hl : l = r₂.reverse ++ o :: r₁.reverse := by
        have hrev := congrArg List.reverse heq
        rw [List.reverse_reverse] at hrev
        rw [hrev, List.reverse_append, List.reverse_cons, List.append_assoc,
          List.singleton_append]
      refine ⟨hs, hfs, fun d hd hsd => ?_, r₂.reverse, r₁.reverse, hl,
        fun d hd hsd => h₁ d (List.mem_reverse.mp hd) hsd⟩
      have hd' : d ∈ l.reverse := List.mem_reverse.mpr hd
      rw [heq] at hd'
      rcases List.mem_append.mp hd' with hd₁ | hd₂
      · exact (h₁ d hd₁ hsd).le
      · rcases List.mem_cons.mp hd₂ with rfl | hd₃
        · exact le_refl _
        · exact h₂ d hd₃ hsd
  · rintro ⟨d, hd, hsd, hpos⟩ hnone
    obtain ⟨-, hall⟩ := findNearestGo_none objectType l.reverse 0 none hnone
    exact absurd (hall d (List.mem_reverse.mpr hd) hsd) (not_le.mpr hpos)

/-- Witness for C4: the two-element tie list; the selected detection is a
survivor of positive value, and existence holds. -/
theorem findNearestObject_best_match_witness :
    isSurvivor ("red_ball".toList) dTieB = true ∧ 0 < detSize dTieB ∧
    findNearestObject ("red_ball".toList) [dTieA, dTieB] ≠ none := by
  have h1 := (findNearestObject_best_match ("red_ball".toList) [dTieA, dTieB]).1
    dTieB (by with_unfolding_all rfl)
  have h2 := (findNearestObject_best_match ("red_ball".toList) [dTieA, dTieB]).2
    ⟨dTieB, by simp, by with_unfolding_all rfl, by with_unfolding_all decide⟩
  exact ⟨h1.1, h1.2.1, h2⟩

end CloudDerby
